import Mathlib

/-!
Verification development for the databend pipeline execution engine and its
surrounding interfaces. Each section embeds one part of the source tree
(or, where the deciding code is not in the sources at hand, a model written
from the specification) and proves the corresponding claims.
-/

namespace Databend

/-!
Port protocol.

Modelled from the spec: the `Port` implementation
(`src/query/pipeline/core/src/processors/port.rs`) is not among the sources;
§4.1 of the spec gives its contract, which we embed as a small state machine.
The data slot is modelled as a `List` (an unbounded queue) precisely so that
"at most one pending unit" is a provable invariant rather than a typing
artifact.
-/

inductive PortState where
  | Empty
  | HasData
  | NeedData
  | Finished
deriving DecidableEq, Repr

structure Port (α : Type) where
  state : PortState
  slot : List α
deriving DecidableEq, Repr

/-- Operations either side of a port may attempt, per §4.1. -/
inductive PortOp (α : Type) where
  | push (a : α)
  | pull
  | needData
  | finish
deriving DecidableEq, Repr

/-- Modelled from the spec: the producer may push one unit if the state is not
`HasData`/`Finished`; the consumer may pull if `HasData`; the consumer signals
`NeedData` when idle; either side may force `Finished` at any time. A
disallowed operation is a protocol violation, returned as `none`. -/
def applyOp (p : Port α) : PortOp α → Option (Port α)
  | .push a =>
    if p.state = .HasData ∨ p.state = .Finished then none
    else some { state := .HasData, slot := p.slot ++ [a] }
  | .pull =>
    if p.state = .HasData then some { state := .Empty, slot := p.slot.tail }
    else none
  | .needData =>
    if p.state = .Empty ∨ p.state = .NeedData then some { p with state := .NeedData }
    else none
  | .finish => some { p with state := .Finished }

/-- A port starts empty and not finished. -/
def initPort (α : Type) : Port α := { state := .Empty, slot := [] }

/-- Run a sequence of port operations, failing on the first protocol
violation. -/
def runPort (p : Port α) : List (PortOp α) → Option (Port α)
  | [] => some p
  | op :: ops =>
    match applyOp p op with
    | none => none
    | some q => runPort q ops

/-- The inductive invariant of a port: at most one pending unit, the slot is
drained in the `Empty`/`NeedData` states, and `HasData` holds exactly one
unit. -/
def portInv (p : Port α) : Prop :=
  p.slot.length ≤ 1 ∧
  ((p.state = .Empty ∨ p.state = .NeedData) → p.slot = []) ∧
  (p.state = .HasData → p.slot.length = 1)

theorem portInv_init (α : Type) : portInv (initPort α) := by
  refine ⟨by simp [initPort], by simp [initPort], ?_⟩
  intro h
  simp [initPort] at h

theorem portInv_step {α : Type} {p q : Port α} {op : PortOp α}
    (hp : portInv p) (h : applyOp p op = some q) : portInv q := by
  obtain ⟨h1, h2, h3⟩ := hp
  cases op with
  | push a =>
    simp only [applyOp] at h
    split at h
    · exact absurd h (by simp)
    · rename_i hcond
      push_neg at hcond
      have hs : p.slot = [] := by
        cases hst : p.state with
        | Empty => exact h2 (Or.inl hst)
        | NeedData => exact h2 (Or.inr hst)
        | HasData => exact absurd hst hcond.1
        | Finished => exact absurd hst hcond.2
      cases h
      refine ⟨by simp [hs], by simp, by simp [hs]⟩
  | pull =>
    simp only [applyOp] at h
    split at h
    · cases h
      rename_i hst
      obtain ⟨a, ha⟩ := List.length_eq_one.mp (h3 hst)
      refine ⟨by simp [ha], by simp [ha], by simp⟩
    · exact absurd h (by simp)
  | needData =>
    simp only [applyOp] at h
    split at h
    · cases h
      rename_i hcond
      have hs : p.slot = [] := h2 hcond
      refine ⟨by simp [hs], by simp [hs], by simp⟩
    · exact absurd h (by simp)
  | finish =>
    simp only [applyOp] at h
    cases h
    refine ⟨h1, by simp, by simp⟩

theorem portInv_run {α : Type} {p q : Port α} {ops : List (PortOp α)}
    (hp : portInv p) (h : runPort p ops = some q) : portInv q := by
  induction ops generalizing p with
  | nil => simp [runPort] at h; exact h ▸ hp
  | cons op ops ih =>
    simp only [runPort] at h
    cases happ : applyOp p op with
    | none => rw [happ] at h; exact absurd h (by simp)
    | some r =>
      rw [happ] at h
      exact ih (portInv_step hp happ) h

/-- Claim C1: for every port of every pipeline, at every moment during a run,
the port holds at most one pending unit: every port state reachable by a run
of the protocol holds at most one unit in its slot, is either
empty-and-not-finished, holding exactly one unit, or finished, and a push can
only succeed when the slot holds no unconsumed unit. -/
theorem port_at_most_one_pending {α : Type} (ops : List (PortOp α)) (q : Port α)
    (h : runPort (initPort α) ops = some q) :
    q.slot.length ≤ 1 ∧
    (q.state = .Finished ∨ (q.slot = [] ∧ q.state ≠ .Finished) ∨
      (q.slot.length = 1 ∧ q.state = .HasData)) ∧
    (∀ (a : α) (q' : Port α), applyOp q (.push a) = some q' → q.slot = []) := by
  have hinv := portInv_run (portInv_init α) h
  obtain ⟨h1, h2, h3⟩ := hinv
  refine ⟨h1, ?_, ?_⟩
  · cases hst : q.state with
    | Empty => exact Or.inr (Or.inl ⟨h2 (Or.inl hst), by simp [hst]⟩)
    | NeedData => exact Or.inr (Or.inl ⟨h2 (Or.inr hst), by simp [hst]⟩)
    | HasData => exact Or.inr (Or.inr ⟨h3 hst, rfl⟩)
    | Finished => exact Or.inl rfl
  · intro a q' hpush
    simp only [applyOp] at hpush
    split at hpush
    · exact absurd hpush (by simp)
    · rename_i hcond
      push_neg at hcond
      cases hst : q.state with
      | Empty => exact h2 (Or.inl hst)
      | NeedData => exact h2 (Or.inr hst)
      | HasData => exact absurd hst hcond.1
      | Finished => exact absurd hst hcond.2

/-- Witness for C1 on a concrete run: push, pull, signal need-data, push again. -/
theorem port_at_most_one_pending_witness :
    runPort (initPort Nat) [.push 5, .pull, .needData, .push 7] =
      some { state := .HasData, slot := [7] } ∧
    ({ state := .HasData, slot := [7] } : Port Nat).slot.length ≤ 1 ∧
    (({ state := .HasData, slot := [7] } : Port Nat).state = .Finished ∨
      (({ state := .HasData, slot := [7] } : Port Nat).slot = [] ∧
        ({ state := .HasData, slot := [7] } : Port Nat).state ≠ .Finished) ∨
      (({ state := .HasData, slot := [7] } : Port Nat).slot.length = 1 ∧
        ({ state := .HasData, slot := [7] } : Port Nat).state = .HasData)) ∧
    (∀ (a : Nat) (q' : Port Nat),
      applyOp { state := .HasData, slot := [7] } (.push a) = some q' →
      ({ state := .HasData, slot := [7] } : Port Nat).slot = []) :=
  ⟨by decide, port_at_most_one_pending [.push 5, .pull, .needData, .push 7] _ (by decide)⟩

/-!
Pipelines and the `PipelineBuildResult` handoff object.

`PipelineBuildResult` itself is embedded from
`src/query/service/src/pipelines/pipeline_build_res.rs`. Its dependencies
(`Pipeline`, `Pipe`, the exchange injector, profiles) live outside the
sources at hand and are modelled from the spec (§2, §3, §4.3, §4.5, §6).
-/

/-- Modelled from the spec: a `Pipe` is a stage, an ordered list of processors
with uniform input/output arity (§3); the processors are identified by name. -/
structure Pipe where
  input_arity : Nat
  output_arity : Nat
  items : List String
deriving DecidableEq, Repr

/-- Modelled from the spec: a `Pipeline` is an ordered list of pipes plus
bookkeeping: the configured maximum thread count and an optional on-finished
callback, kept as an abstract handle (§3). -/
structure Pipeline where
  pipes : List Pipe
  max_threads : Nat
  on_finished : Option Nat
deriving DecidableEq, Repr

def Pipeline.create : Pipeline :=
  { pipes := [], max_threads := 0, on_finished := none }

/-- Modelled from the spec: the maximum-thread-count configuration value is
applied uniformly (§6); setting it on one pipeline stores the cap. -/
def Pipeline.set_max_threads (p : Pipeline) (max_threads : Nat) : Pipeline :=
  { p with max_threads := max_threads }

def Pipeline.add_pipe (p : Pipeline) (pipe : Pipe) : Pipeline :=
  { p with pipes := p.pipes ++ [pipe] }

/-- Modelled from the spec: the partitioning discipline an exchange boundary
uses (§4.5): stay local, broadcast, hash-partition, or single-destination
passthrough. -/
inductive BoundaryStrategy where
  | stayLocal
  | broadcast
  | hashShuffle (buckets : Nat)
  | passthrough
deriving DecidableEq, Repr

/-- Modelled from the spec: an `ExchangeInjector` decides, per pipeline
boundary, which partitioning strategy replaces the local port link (§3,
§4.5). -/
structure ExchangeInjector where
  strategy : Nat → BoundaryStrategy

/-- The default injector is the identity strategy: every boundary stays
local (§4.5). -/
def DefaultExchangeInjector.create : ExchangeInjector :=
  { strategy := fun _ => .stayLocal }

/-- Embedded from `src/query/pipeline/core/src/processors/profile.rs`: the
per-processor profile record. The two `AtomicU64` nanosecond counters are
embedded as natural numbers. -/
structure Profile where
  pid : Nat
  p_name : String
  cpu_time : Nat
  wait_time : Nat
deriving DecidableEq, Repr

def Profile.create (pid : Nat) (p_name : String) : Profile :=
  { pid := pid, p_name := p_name, cpu_time := 0, wait_time := 0 }

/-- Modelled from the spec: the query-wide set of profiling spans, keyed by
processor; empty when profiling is disabled. -/
abbrev SharedProcessorProfiles := List Profile

/-- Modelled from the spec: the hash-join build-side handle shared across
fragments (§3, §5); kept abstract as a handle. -/
structure HashJoinBuildState where
  handle : Nat
deriving DecidableEq, Repr

/-- Modelled from the spec: a field of a probe-side schema. -/
structure DataField where
  name : String
deriving DecidableEq, Repr

/-- Embedded from `pipeline_build_res.rs`: shared build-time state for local
fragment data sharing. -/
structure PipelineBuilderData where
  input_join_state : Option HashJoinBuildState
  input_probe_schema : Option (List DataField)
deriving DecidableEq, Repr

/-- Embedded from `pipeline_build_res.rs`: the handoff object from planner to
executor. -/
structure PipelineBuildResult where
  main_pipeline : Pipeline
  sources_pipelines : List Pipeline
  prof_span_set : SharedProcessorProfiles
  exchange_injector : ExchangeInjector
  builder_data : PipelineBuilderData

def PipelineBuildResult.create : PipelineBuildResult :=
  { main_pipeline := Pipeline.create
    sources_pipelines := []
    prof_span_set := []
    exchange_injector := DefaultExchangeInjector.create
    builder_data := { input_join_state := none, input_probe_schema := none } }

/-- Modelled from the spec: a one-shot constant source processor holding one
data block (§3 lists "one-shot constant source" among processor variants);
a data block is kept abstract as a row list. -/
abbrev DataBlock := List Nat

/-- Modelled from the spec: building the source pipe of `from_blocks`, one
one-shot source per block, a pipe with no inputs and one output per lane. -/
def sourcePipeOfBlocks (blocks : List DataBlock) : Pipe :=
  { input_arity := 0
    output_arity := blocks.length
    items := blocks.map (fun _ => "OneBlockSource") }

/-- Embedded from `pipeline_build_res.rs`: `from_blocks` builds a main
pipeline whose single pipe holds one one-shot source per block. The fallible
`Result` signature is kept as `Except`. -/
def PipelineBuildResult.from_blocks (blocks : List DataBlock) :
    Except String PipelineBuildResult :=
  .ok
    { main_pipeline := Pipeline.create.add_pipe (sourcePipeOfBlocks blocks)
      sources_pipelines := []
      prof_span_set := []
      exchange_injector := DefaultExchangeInjector.create
      builder_data := { input_join_state := none, input_probe_schema := none } }

/-- Embedded from `pipeline_build_res.rs`: `set_max_threads` applies the cap
to the main pipeline and to each auxiliary source pipeline. -/
def PipelineBuildResult.set_max_threads (r : PipelineBuildResult)
    (max_threads : Nat) : PipelineBuildResult :=
  { r with
    main_pipeline := r.main_pipeline.set_max_threads max_threads
    sources_pipelines :=
      r.sources_pipelines.map (fun p => p.set_max_threads max_threads) }

/-- Claim C2: `set_max_threads n` sets the maximum thread count of the main
pipeline and of every auxiliary source pipeline to the same value `n`, and
changes nothing else in the result: every other field of every pipeline and
of the result itself is unchanged. -/
theorem set_max_threads_uniform (r : PipelineBuildResult) (n : Nat) :
    (r.set_max_threads n).main_pipeline.max_threads = n ∧
    (∀ p ∈ (r.set_max_threads n).sources_pipelines, p.max_threads = n) ∧
    (r.set_max_threads n).main_pipeline.pipes = r.main_pipeline.pipes ∧
    (r.set_max_threads n).main_pipeline.on_finished = r.main_pipeline.on_finished ∧
    (r.set_max_threads n).sources_pipelines.length = r.sources_pipelines.length ∧
    (∀ i : Nat, ∀ hi : i < r.sources_pipelines.length,
      ((r.set_max_threads n).sources_pipelines.get
          ⟨i, by simpa [PipelineBuildResult.set_max_threads] using hi⟩).pipes =
        (r.sources_pipelines.get ⟨i, hi⟩).pipes ∧
      ((r.set_max_threads n).sources_pipelines.get
          ⟨i, by simpa [PipelineBuildResult.set_max_threads] using hi⟩).on_finished =
        (r.sources_pipelines.get ⟨i, hi⟩).on_finished) ∧
    (r.set_max_threads n).prof_span_set = r.prof_span_set ∧
    (r.set_max_threads n).exchange_injector = r.exchange_injector ∧
    (r.set_max_threads n).builder_data = r.builder_data := by
  refine ⟨rfl, ?_, rfl, rfl, by simp [PipelineBuildResult.set_max_threads], ?_, rfl, rfl, rfl⟩
  · intro p hp
    simp only [PipelineBuildResult.set_max_threads, List.mem_map] at hp
    obtain ⟨q, _, rfl⟩ := hp
    rfl
  · intro i hi
    exact ⟨by simp [PipelineBuildResult.set_max_threads, Pipeline.set_max_threads],
      by simp [PipelineBuildResult.set_max_threads, Pipeline.set_max_threads]⟩

/-- Witness for C2 at a concrete result with one auxiliary pipeline. -/
theorem set_max_threads_uniform_witness :
    ((PipelineBuildResult.create.set_max_threads 8).main_pipeline.max_threads = 8) ∧
    (∀ p ∈ (PipelineBuildResult.create.set_max_threads 8).sources_pipelines,
      p.max_threads = 8) :=
  ⟨(set_max_threads_uniform PipelineBuildResult.create 8).1,
    (set_max_threads_uniform PipelineBuildResult.create 8).2.1⟩

/-- Claim C3: the constructors `create` and `from_blocks` both install the
default exchange injector, the identity strategy under which every boundary
stays local. -/
theorem constructors_use_default_injector :
    PipelineBuildResult.create.exchange_injector = DefaultExchangeInjector.create ∧
    (∀ (blocks : List DataBlock) (r : PipelineBuildResult),
      PipelineBuildResult.from_blocks blocks = .ok r →
      r.exchange_injector = DefaultExchangeInjector.create) ∧
    (∀ boundary : Nat,
      DefaultExchangeInjector.create.strategy boundary = .stayLocal) := by
  refine ⟨rfl, ?_, fun _ => rfl⟩
  intro blocks r h
  simp only [PipelineBuildResult.from_blocks, Except.ok.injEq] at h
  rw [← h]

/-- Witness for C3 at a concrete block list. -/
theorem constructors_use_default_injector_witness :
    ({ main_pipeline := Pipeline.create.add_pipe (sourcePipeOfBlocks [[1, 2], [3]])
       sources_pipelines := []
       prof_span_set := []
       exchange_injector := DefaultExchangeInjector.create
       builder_data := { input_join_state := none, input_probe_schema := none } } :
      PipelineBuildResult).exchange_injector = DefaultExchangeInjector.create :=
  constructors_use_default_injector.2.1 [[1, 2], [3]] _ rfl

/-- A build result with an empty profile-span set, agreeing with
`buildResWithProfile` on every component the claim lists. -/
def buildResNoProfile : PipelineBuildResult :=
  { main_pipeline := Pipeline.create
    sources_pipelines := []
    prof_span_set := []
    exchange_injector := DefaultExchangeInjector.create
    builder_data := { input_join_state := none, input_probe_schema := none } }

/-- A build result identical to `buildResNoProfile` except for a non-empty
profile-span set. -/
def buildResWithProfile : PipelineBuildResult :=
  { main_pipeline := Pipeline.create
    sources_pipelines := []
    prof_span_set := [Profile.create 0 "source"]
    exchange_injector := DefaultExchangeInjector.create
    builder_data := { input_join_state := none, input_probe_schema := none } }

/-- Counterexample to C4 as stated: two distinct `PipelineBuildResult` values
agree on the main pipeline, the auxiliary source pipelines, the exchange
injector and the shared build-time state, so those four components are not
all a `PipelineBuildResult` consists of — the profiling span set is a fifth
component. -/
theorem build_result_not_four_components :
    buildResNoProfile.main_pipeline = buildResWithProfile.main_pipeline ∧
    buildResNoProfile.sources_pipelines = buildResWithProfile.sources_pipelines ∧
    buildResNoProfile.exchange_injector = buildResWithProfile.exchange_injector ∧
    buildResNoProfile.builder_data = buildResWithProfile.builder_data ∧
    buildResNoProfile ≠ buildResWithProfile := by
  refine ⟨rfl, rfl, rfl, rfl, ?_⟩
  intro h
  have hps := congrArg PipelineBuildResult.prof_span_set h
  simp [buildResNoProfile, buildResWithProfile] at hps

/-- Claim C4 as amended: a `PipelineBuildResult` consists of exactly five
components — the main pipeline, the list of auxiliary source pipelines, the
set of profiling spans, the exchange injector, and the shared build-time
state, which in turn consists of an optional hash-join build-side handle and
an optional probe schema. Formally: the five components jointly determine
the value, every five-tuple is realized, and the build-time state is
determined by its two optional fields. -/
theorem build_result_five_components :
    (∀ r s : PipelineBuildResult,
      r.main_pipeline = s.main_pipeline →
      r.sources_pipelines = s.sources_pipelines →
      r.prof_span_set = s.prof_span_set →
      r.exchange_injector = s.exchange_injector →
      r.builder_data = s.builder_data → r = s) ∧
    (∀ (mp : Pipeline) (sp : List Pipeline) (ps : SharedProcessorProfiles)
        (ei : ExchangeInjector) (bd : PipelineBuilderData),
      (PipelineBuildResult.mk mp sp ps ei bd).main_pipeline = mp ∧
      (PipelineBuildResult.mk mp sp ps ei bd).sources_pipelines = sp ∧
      (PipelineBuildResult.mk mp sp ps ei bd).prof_span_set = ps ∧
      (PipelineBuildResult.mk mp sp ps ei bd).exchange_injector = ei ∧
      (PipelineBuildResult.mk mp sp ps ei bd).builder_data = bd) ∧
    (∀ bd cd : PipelineBuilderData,
      bd.input_join_state = cd.input_join_state →
      bd.input_probe_schema = cd.input_probe_schema → bd = cd) := by
  refine ⟨?_, fun mp sp ps ei bd => ⟨rfl, rfl, rfl, rfl, rfl⟩, ?_⟩
  · intro r s h1 h2 h3 h4 h5
    cases r; cases s
    simp_all
  · intro bd cd h1 h2
    cases bd; cases cd
    simp_all

/-- Witness for the amended C4 at two concrete values. -/
theorem build_result_five_components_witness :
    buildResWithProfile =
      PipelineBuildResult.mk Pipeline.create [] [Profile.create 0 "source"]
        DefaultExchangeInjector.create
        { input_join_state := none, input_probe_schema := none } :=
  build_result_five_components.1 buildResWithProfile _ rfl rfl rfl rfl rfl

/-- Claim C5: `Profile.create pid name` yields a record holding exactly the
processor id, the processor name, and the two time counters initialized to
zero: its four fields have those values, and any profile agreeing on those
four fields is equal to it (the record has no further components). -/
theorem profile_create_fields (pid : Nat) (p_name : String) :
    (Profile.create pid p_name).pid = pid ∧
    (Profile.create pid p_name).p_name = p_name ∧
    (Profile.create pid p_name).cpu_time = 0 ∧
    (Profile.create pid p_name).wait_time = 0 ∧
    (∀ q : Profile, q.pid = pid → q.p_name = p_name →
      q.cpu_time = 0 → q.wait_time = 0 → q = Profile.create pid p_name) := by
  refine ⟨rfl, rfl, rfl, rfl, ?_⟩
  intro q h1 h2 h3 h4
  cases q
  simp_all [Profile.create]

/-- Witness for C5 at a concrete processor id and name. -/
theorem profile_create_fields_witness :
    (Profile.create 3 "HashJoinProbe").cpu_time = 0 ∧
    (Profile.create 3 "HashJoinProbe").wait_time = 0 ∧
    Profile.mk 3 "HashJoinProbe" 0 0 = Profile.create 3 "HashJoinProbe" :=
  ⟨(profile_create_fields 3 "HashJoinProbe").2.2.1,
    (profile_create_fields 3 "HashJoinProbe").2.2.2.1,
    (profile_create_fields 3 "HashJoinProbe").2.2.2.2
      (Profile.mk 3 "HashJoinProbe" 0 0) rfl rfl rfl rfl⟩

/-!
Meta-service gRPC actions, embedded from
`common/meta/raft-store/src/grpc/grpc_action.rs`.

The payload request types (`CreateDatabaseReq`, `GetTableReq`, ...) live in
`common_meta_types`, outside the sources at hand; following the spec, which
treats them as opaque "typed request/reply actions", they are kept as type
parameters. The derived serde JSON serialization of the two enums is the
externally tagged form, embedded at the level of JSON values (the printing
and reparsing of the JSON text is the serde_json library's concern). -/

/-- JSON values, the target of the embedded serialization. -/
inductive Json where
  | null
  | num (n : Nat)
  | str (s : String)
  | obj (fields : List (String × Json))

/-- Embedded from `grpc_action.rs`: the cluster-write action family. Each
constructor carries its (opaque) request payload. -/
inductive MetaGrpcWriteAction (cd dd ct dt co uk : Type) where
  | CreateDatabase (req : cd)
  | DropDatabase (req : dd)
  | CreateTable (req : ct)
  | DropTable (req : dt)
  | CommitTable (req : co)
  | UpsertKV (req : uk)
deriving DecidableEq

/-- Embedded from `grpc_action.rs`: the read-only action family. Each
constructor carries its (opaque) request payload. -/
inductive MetaGrpcGetAction (gd ld gt ge lt gk mk pl : Type) where
  | GetDatabase (req : gd)
  | ListDatabases (req : ld)
  | GetTable (req : gt)
  | GetTableExt (req : ge)
  | ListTables (req : lt)
  | GetKV (req : gk)
  | MGetKV (req : mk)
  | PrefixListKV (req : pl)
deriving DecidableEq

/-- The kind (serde tag) of a write action. -/
def MetaGrpcWriteAction.kind : MetaGrpcWriteAction cd dd ct dt co uk → String
  | .CreateDatabase _ => "CreateDatabase"
  | .DropDatabase _ => "DropDatabase"
  | .CreateTable _ => "CreateTable"
  | .DropTable _ => "DropTable"
  | .CommitTable _ => "CommitTable"
  | .UpsertKV _ => "UpsertKV"

/-- The kind (serde tag) of a read-only action. -/
def MetaGrpcGetAction.kind : MetaGrpcGetAction gd ld gt ge lt gk mk pl → String
  | .GetDatabase _ => "GetDatabase"
  | .ListDatabases _ => "ListDatabases"
  | .GetTable _ => "GetTable"
  | .GetTableExt _ => "GetTableExt"
  | .ListTables _ => "ListTables"
  | .GetKV _ => "GetKV"
  | .MGetKV _ => "MGetKV"
  | .PrefixListKV _ => "PrefixListKV"

/-- The cluster-write request family named by the claim: create database,
drop database, create table, drop table, commit table option, upsert KV. -/
def writeFamily : List String :=
  ["CreateDatabase", "DropDatabase", "CreateTable", "DropTable",
   "CommitTable", "UpsertKV"]

/-- The read-only request family named by the claim: get database, list
databases, get table, get table by id, list tables, get KV, multi-get KV,
prefix-list KV. -/
def getFamily : List String :=
  ["GetDatabase", "ListDatabases", "GetTable", "GetTableExt", "ListTables",
   "GetKV", "MGetKV", "PrefixListKV"]

/-- Claim C7: every metadata-service action belongs to exactly one of the two
families: each write action's kind is in the write family, each read-only
action's kind is in the read-only family, each listed kind is realized by an
action of its family, and no kind is in both families. -/
theorem action_families_disjoint :
    (∀ a : MetaGrpcWriteAction Unit Unit Unit Unit Unit Unit,
      a.kind ∈ writeFamily) ∧
    (∀ a : MetaGrpcGetAction Unit Unit Unit Unit Unit Unit Unit Unit,
      a.kind ∈ getFamily) ∧
    (∀ k ∈ writeFamily,
      ∃ a : MetaGrpcWriteAction Unit Unit Unit Unit Unit Unit, a.kind = k) ∧
    (∀ k ∈ getFamily,
      ∃ a : MetaGrpcGetAction Unit Unit Unit Unit Unit Unit Unit Unit,
        a.kind = k) ∧
    (∀ k : String, k ∈ writeFamily → k ∉ getFamily) := by
  refine ⟨?_, ?_, ?_, ?_, ?_⟩
  · intro a; cases a <;> simp [MetaGrpcWriteAction.kind, writeFamily]
  · intro a; cases a <;> simp [MetaGrpcGetAction.kind, getFamily]
  · intro k hk
    simp only [writeFamily, List.mem_cons, List.mem_singleton] at hk
    rcases hk with rfl | rfl | rfl | rfl | rfl | rfl | h
    · exact ⟨.CreateDatabase (), rfl⟩
    · exact ⟨.DropDatabase (), rfl⟩
    · exact ⟨.CreateTable (), rfl⟩
    · exact ⟨.DropTable (), rfl⟩
    · exact ⟨.CommitTable (), rfl⟩
    · exact ⟨.UpsertKV (), rfl⟩
    · simp at h
  · intro k hk
    simp only [getFamily, List.mem_cons, List.mem_singleton] at hk
    rcases hk with rfl | rfl | rfl | rfl | rfl | rfl | rfl | rfl | h
    · exact ⟨.GetDatabase (), rfl⟩
    · exact ⟨.ListDatabases (), rfl⟩
    · exact ⟨.GetTable (), rfl⟩
    · exact ⟨.GetTableExt (), rfl⟩
    · exact ⟨.ListTables (), rfl⟩
    · exact ⟨.GetKV (), rfl⟩
    · exact ⟨.MGetKV (), rfl⟩
    · exact ⟨.PrefixListKV (), rfl⟩
    · simp at h
  · decide

/-- Witness for C7 at a concrete kind from each family. -/
theorem action_families_disjoint_witness :
    (MetaGrpcWriteAction.UpsertKV () :
        MetaGrpcWriteAction Unit Unit Unit Unit Unit Unit).kind ∈ writeFamily ∧
    "CreateTable" ∉ getFamily :=
  ⟨action_families_disjoint.1 (.UpsertKV ()),
    action_families_disjoint.2.2.2.2 "CreateTable" (by decide)⟩

/-- A tonic request wrapper, reduced to its message; `into_inner` is the
projection. -/
structure Request (α : Type) where
  message : α

/-- Embedded from the protobuf declarations used by `grpc_action.rs`: a raft
request whose `data` field carries the JSON-encoded write action. -/
structure RaftRequest where
  data : Json

/-- Embedded from the protobuf declarations used by `grpc_action.rs`: a get
request whose `key` field carries the JSON-encoded read-only action. -/
structure GetReq where
  key : Json

/-- The derived serde serialization of the write-action enum: externally
tagged, a one-field object mapping the constructor tag to the encoded
payload. -/
def MetaGrpcWriteAction.encode (ecd : cd → Json) (edd : dd → Json)
    (ect : ct → Json) (edt : dt → Json) (eco : co → Json) (euk : uk → Json) :
    MetaGrpcWriteAction cd dd ct dt co uk → Json
  | .CreateDatabase r => .obj [("CreateDatabase", ecd r)]
  | .DropDatabase r => .obj [("DropDatabase", edd r)]
  | .CreateTable r => .obj [("CreateTable", ect r)]
  | .DropTable r => .obj [("DropTable", edt r)]
  | .CommitTable r => .obj [("CommitTable", eco r)]
  | .UpsertKV r => .obj [("UpsertKV", euk r)]

/-- The derived serde deserialization of the write-action enum: dispatch on
the single tag of an externally tagged object. -/
def MetaGrpcWriteAction.decode (dcd : Json → Option cd) (ddd : Json → Option dd)
    (dct : Json → Option ct) (ddt : Json → Option dt) (dco : Json → Option co)
    (duk : Json → Option uk) :
    Json → Option (MetaGrpcWriteAction cd dd ct dt co uk)
  | .obj [(tag, payload)] =>
    if tag = "CreateDatabase" then (dcd payload).map .CreateDatabase
    else if tag = "DropDatabase" then (ddd payload).map .DropDatabase
    else if tag = "CreateTable" then (dct payload).map .CreateTable
    else if tag = "DropTable" then (ddt payload).map .DropTable
    else if tag = "CommitTable" then (dco payload).map .CommitTable
    else if tag = "UpsertKV" then (duk payload).map .UpsertKV
    else none
  | _ => none

/-- The derived serde serialization of the read-only-action enum. -/
def MetaGrpcGetAction.encode (egd : gd → Json) (eld : ld → Json)
    (egt : gt → Json) (ege : ge → Json) (elt : lt → Json) (egk : gk → Json)
    (emk : mk → Json) (epl : pl → Json) :
    MetaGrpcGetAction gd ld gt ge lt gk mk pl → Json
  | .GetDatabase r => .obj [("GetDatabase", egd r)]
  | .ListDatabases r => .obj [("ListDatabases", eld r)]
  | .GetTable r => .obj [("GetTable", egt r)]
  | .GetTableExt r => .obj [("GetTableExt", ege r)]
  | .ListTables r => .obj [("ListTables", elt r)]
  | .GetKV r => .obj [("GetKV", egk r)]
  | .MGetKV r => .obj [("MGetKV", emk r)]
  | .PrefixListKV r => .obj [("PrefixListKV", epl r)]

/-- The derived serde deserialization of the read-only-action enum. -/
def MetaGrpcGetAction.decode (dgd : Json → Option gd) (dld : Json → Option ld)
    (dgt : Json → Option gt) (dge : Json → Option ge) (dlt : Json → Option lt)
    (dgk : Json → Option gk) (dmk : Json → Option mk) (dpl : Json → Option pl) :
    Json → Option (MetaGrpcGetAction gd ld gt ge lt gk mk pl)
  | .obj [(tag, payload)] =>
    if tag = "GetDatabase" then (dgd payload).map .GetDatabase
    else if tag = "ListDatabases" then (dld payload).map .ListDatabases
    else if tag = "GetTable" then (dgt payload).map .GetTable
    else if tag = "GetTableExt" then (dge payload).map .GetTableExt
    else if tag = "ListTables" then (dlt payload).map .ListTables
    else if tag = "GetKV" then (dgk payload).map .GetKV
    else if tag = "MGetKV" then (dmk payload).map .MGetKV
    else if tag = "PrefixListKV" then (dpl payload).map .PrefixListKV
    else none
  | _ => none

/-- Embedded from `TryInto<Request<RaftRequest>> for &MetaGrpcWriteAction`:
serialize the action and wrap it in a request. -/
def writeToRaftRequest (ecd : cd → Json) (edd : dd → Json) (ect : ct → Json)
    (edt : dt → Json) (eco : co → Json) (euk : uk → Json)
    (a : MetaGrpcWriteAction cd dd ct dt co uk) : Request RaftRequest :=
  { message := { data := a.encode ecd edd ect edt eco euk } }

/-- Embedded from `TryInto<MetaGrpcWriteAction> for Request<RaftRequest>`:
unwrap the request and deserialize its `data`. -/
def raftRequestToWriteAction (dcd : Json → Option cd) (ddd : Json → Option dd)
    (dct : Json → Option ct) (ddt : Json → Option dt) (dco : Json → Option co)
    (duk : Json → Option uk) (r : Request RaftRequest) :
    Option (MetaGrpcWriteAction cd dd ct dt co uk) :=
  MetaGrpcWriteAction.decode dcd ddd dct ddt dco duk r.message.data

/-- Embedded from `TryInto<Request<GetReq>> for &MetaGrpcGetAction`. -/
def getActionToGetReq (egd : gd → Json) (eld : ld → Json) (egt : gt → Json)
    (ege : ge → Json) (elt : lt → Json) (egk : gk → Json) (emk : mk → Json)
    (epl : pl → Json) (a : MetaGrpcGetAction gd ld gt ge lt gk mk pl) :
    Request GetReq :=
  { message := { key := a.encode egd eld egt ege elt egk emk epl } }

/-- Embedded from `TryInto<MetaGrpcGetAction> for Request<GetReq>`. -/
def getReqToGetAction (dgd : Json → Option gd) (dld : Json → Option ld)
    (dgt : Json → Option gt) (dge : Json → Option ge) (dlt : Json → Option lt)
    (dgk : Json → Option gk) (dmk : Json → Option mk) (dpl : Json → Option pl)
    (r : Request GetReq) : Option (MetaGrpcGetAction gd ld gt ge lt gk mk pl) :=
  MetaGrpcGetAction.decode dgd dld dgt dge dlt dgk dmk dpl r.message.key

/-- Claim C8: for payload codecs that round-trip, converting a write action
into a `Request RaftRequest` and back yields exactly the original action, and
likewise for a read-only action via `Request GetReq`. -/
theorem grpc_action_roundtrip
    (ecd : cd → Json) (dcd : Json → Option cd) (hcd : ∀ r, dcd (ecd r) = some r)
    (edd : dd → Json) (ddd : Json → Option dd) (hdd : ∀ r, ddd (edd r) = some r)
    (ect : ct → Json) (dct : Json → Option ct) (hct : ∀ r, dct (ect r) = some r)
    (edt : dt → Json) (ddt : Json → Option dt) (hdt : ∀ r, ddt (edt r) = some r)
    (eco : co → Json) (dco : Json → Option co) (hco : ∀ r, dco (eco r) = some r)
    (euk : uk → Json) (duk : Json → Option uk) (huk : ∀ r, duk (euk r) = some r)
    (egd : gd → Json) (dgd : Json → Option gd) (hgd : ∀ r, dgd (egd r) = some r)
    (eld : ld → Json) (dld : Json → Option ld) (hld : ∀ r, dld (eld r) = some r)
    (egt : gt → Json) (dgt : Json → Option gt) (hgt : ∀ r, dgt (egt r) = some r)
    (ege : ge → Json) (dge : Json → Option ge) (hge : ∀ r, dge (ege r) = some r)
    (elt : lt → Json) (dlt : Json → Option lt) (hlt : ∀ r, dlt (elt r) = some r)
    (egk : gk → Json) (dgk : Json → Option gk) (hgk : ∀ r, dgk (egk r) = some r)
    (emk : mk → Json) (dmk : Json → Option mk) (hmk : ∀ r, dmk (emk r) = some r)
    (epl : pl → Json) (dpl : Json → Option pl) (hpl : ∀ r, dpl (epl r) = some r) :
    (∀ a : MetaGrpcWriteAction cd dd ct dt co uk,
      raftRequestToWriteAction dcd ddd dct ddt dco duk
        (writeToRaftRequest ecd edd ect edt eco euk a) = some a) ∧
    (∀ a : MetaGrpcGetAction gd ld gt ge lt gk mk pl,
      getReqToGetAction dgd dld dgt dge dlt dgk dmk dpl
        (getActionToGetReq egd eld egt ege elt egk emk epl a) = some a) := by
  constructor
  · intro a
    cases a <;>
      simp [raftRequestToWriteAction, writeToRaftRequest,
        MetaGrpcWriteAction.encode, MetaGrpcWriteAction.decode,
        hcd, hdd, hct, hdt, hco, huk]
  · intro a
    cases a <;>
      simp [getReqToGetAction, getActionToGetReq,
        MetaGrpcGetAction.encode, MetaGrpcGetAction.decode,
        hgd, hld, hgt, hge, hlt, hgk, hmk, hpl]

/-- Encode a natural-number payload as a JSON number. -/
def natJson : Nat → Json := Json.num

/-- Decode a natural-number payload from a JSON number. -/
def jsonNat : Json → Option Nat
  | .num n => some n
  | _ => none

/-- Witness for C8 with natural-number payloads at two concrete actions. -/
theorem grpc_action_roundtrip_witness :
    raftRequestToWriteAction jsonNat jsonNat jsonNat jsonNat jsonNat jsonNat
        (writeToRaftRequest natJson natJson natJson natJson natJson natJson
          (MetaGrpcWriteAction.CreateTable 7 :
            MetaGrpcWriteAction Nat Nat Nat Nat Nat Nat)) =
      some (MetaGrpcWriteAction.CreateTable 7) ∧
    getReqToGetAction jsonNat jsonNat jsonNat jsonNat jsonNat jsonNat jsonNat
        jsonNat
        (getActionToGetReq natJson natJson natJson natJson natJson natJson
          natJson natJson
          (MetaGrpcGetAction.PrefixListKV 9 :
            MetaGrpcGetAction Nat Nat Nat Nat Nat Nat Nat Nat)) =
      some (MetaGrpcGetAction.PrefixListKV 9) := by
  have h := grpc_action_roundtrip
    natJson jsonNat (fun r => rfl) natJson jsonNat (fun r => rfl)
    natJson jsonNat (fun r => rfl) natJson jsonNat (fun r => rfl)
    natJson jsonNat (fun r => rfl) natJson jsonNat (fun r => rfl)
    natJson jsonNat (fun r => rfl) natJson jsonNat (fun r => rfl)
    natJson jsonNat (fun r => rfl) natJson jsonNat (fun r => rfl)
    natJson jsonNat (fun r => rfl) natJson jsonNat (fun r => rfl)
    natJson jsonNat (fun r => rfl) natJson jsonNat (fun r => rfl)
  exact ⟨h.1 (.CreateTable 7), h.2 (.PrefixListKV 9)⟩

/-!
Catalog manager, embedded from `src/query/catalog/src/catalog/manager.rs`.
The manager is reduced to the state `create_catalog`/`drop_catalog` consult:
the set of configured external catalog names. The underlying metastore call
is asynchronous and external; its outcome is passed in as a parameter so that
the theorems can quantify over it.
-/

def CATALOG_DEFAULT : String := "default"

/-- The error codes these paths produce. -/
inductive ErrorCode where
  | BadArguments (msg : String)
deriving DecidableEq, Repr

/-- Embedded from `CreateCatalogReq` as used by `create_catalog`: only the
catalog name is consulted. -/
structure CreateCatalogReq where
  catalog_name : String
deriving DecidableEq, Repr

/-- Embedded from `CatalogNameIdent` as used by `drop_catalog`. -/
structure CatalogNameIdent where
  tenant : String
  catalog_name : String
deriving DecidableEq, Repr

/-- Embedded from `DropCatalogReq`: the name identity of the catalog to
drop. -/
structure DropCatalogReq where
  name_ident : CatalogNameIdent
deriving DecidableEq, Repr

/-- Embedded from `CatalogManager`, reduced to the names of the catalogs
configured as external. -/
structure CatalogManager where
  external_catalogs : List String
deriving DecidableEq, Repr

/-- Embedded from `CatalogManager::create_catalog`: reject the default
catalog name, reject a configured external catalog, otherwise call the
metastore with `let _ = ...` — its outcome `metaResult` is discarded — and
return `Ok(())`. -/
def CatalogManager.create_catalog (m : CatalogManager) (req : CreateCatalogReq)
    (metaResult : Except ErrorCode Unit) : Except ErrorCode Unit :=
  if req.catalog_name = CATALOG_DEFAULT then
    .error (.BadArguments "default catalog cannot be created")
  else if req.catalog_name ∈ m.external_catalogs then
    .error (.BadArguments "catalog already exists that cannot be created")
  else
    (fun _ => Except.ok ()) metaResult

/-- Embedded from `CatalogManager::drop_catalog`: same shape as
`create_catalog`, on the name inside the request's name identity. -/
def CatalogManager.drop_catalog (m : CatalogManager) (req : DropCatalogReq)
    (metaResult : Except ErrorCode Unit) : Except ErrorCode Unit :=
  if req.name_ident.catalog_name = CATALOG_DEFAULT then
    .error (.BadArguments "default catalog cannot be dropped")
  else if req.name_ident.catalog_name ∈ m.external_catalogs then
    .error (.BadArguments "catalog already exists that cannot be dropped")
  else
    (fun _ => Except.ok ()) metaResult

/-- Claim C9: `create_catalog` (and `drop_catalog`) returns an error exactly
when the requested name is the default catalog or a configured external
catalog; in every other case it returns `Ok(())` whatever the metastore call
returned, so a metastore error is discarded. -/
theorem catalog_manager_error_iff (m : CatalogManager)
    (creq : CreateCatalogReq) (dreq : DropCatalogReq)
    (mr mr' : Except ErrorCode Unit) :
    ((m.create_catalog creq mr).isOk ↔
      ¬(creq.catalog_name = CATALOG_DEFAULT ∨
        creq.catalog_name ∈ m.external_catalogs)) ∧
    m.create_catalog creq mr = m.create_catalog creq mr' ∧
    ((m.drop_catalog dreq mr).isOk ↔
      ¬(dreq.name_ident.catalog_name = CATALOG_DEFAULT ∨
        dreq.name_ident.catalog_name ∈ m.external_catalogs)) ∧
    m.drop_catalog dreq mr = m.drop_catalog dreq mr' := by
  refine ⟨?_, ?_, ?_, ?_⟩
  · simp only [CatalogManager.create_catalog]
    split
    · rename_i h
      simp [Except.isOk, Except.toBool, h]
    · split
      · rename_i h h'
        simp [Except.isOk, Except.toBool, h, h']
      · rename_i h h'
        simp [Except.isOk, Except.toBool, h, h']
  · simp only [CatalogManager.create_catalog]
  · simp only [CatalogManager.drop_catalog]
    split
    · rename_i h
      simp [Except.isOk, Except.toBool, h]
    · split
      · rename_i h h'
        simp [Except.isOk, Except.toBool, h, h']
      · rename_i h h'
        simp [Except.isOk, Except.toBool, h, h']
  · simp only [CatalogManager.drop_catalog]

/-- Witness for C9: a manager with one external catalog, a fresh name that
succeeds despite a failing metastore call, and a rejected default drop. -/
theorem catalog_manager_error_iff_witness :
    ((CatalogManager.mk ["hive"]).create_catalog ⟨"fresh"⟩
        (.error (.BadArguments "meta down"))).isOk ∧
    ¬((CatalogManager.mk ["hive"]).drop_catalog ⟨⟨"t", "default"⟩⟩
        (.ok ())).isOk := by
  have h := catalog_manager_error_iff (CatalogManager.mk ["hive"]) ⟨"fresh"⟩
    ⟨⟨"t", "default"⟩⟩ (.error (.BadArguments "meta down")) (.ok ())
  exact ⟨h.1.mpr (by decide), fun hc => (by decide : ¬¬("default" = CATALOG_DEFAULT ∨
    "default" ∈ ["hive"])) ((catalog_manager_error_iff (CatalogManager.mk ["hive"])
      ⟨"fresh"⟩ ⟨⟨"t", "default"⟩⟩ (.ok ()) (.ok ())).2.2.1.mp hc)⟩

/-!
Dictionary-array equality, embedded from
`src/common/arrow/src/arrow/array/equal/dictionary.rs`.

Iterating a dictionary array yields, per slot, `None` when the key is null
and otherwise the dictionary value the key points at — a boxed scalar that
carries its own validity. A slot is embedded as `Option DictValue`, a value
as its validity flag plus its payload.
-/

/-- A dictionary value as seen through the array's iterator: a scalar with
its own validity flag and payload. -/
structure DictValue where
  valid : Bool
  payload : Nat
deriving DecidableEq, Repr

/-- A dictionary array reduced to what `equal` consults: its data type and
its iterated slots. -/
structure DictionaryArray where
  data_type : String
  slots : List (Option DictValue)
deriving DecidableEq, Repr

def DictionaryArray.len (a : DictionaryArray) : Nat := a.slots.length

/-- Embedded from `equal` in `dictionary.rs`: unequal data types or lengths
give `false`; otherwise all zipped slot pairs are compared, where a null slot
on one side only matches a present-but-invalid value on the other, and every
other pair is compared by value. -/
def dictEqual (lhs rhs : DictionaryArray) : Bool :=
  if ¬(lhs.data_type = rhs.data_type ∧ lhs.len = rhs.len) then false
  else
    (lhs.slots.zip rhs.slots).all fun xy =>
      match xy.1, xy.2 with
      | none, some y => !y.valid
      | some x, none => !x.valid
      | x, y => x == y

/-- The claim's slot comparison, stated from the spec's words: a slot that is
null in one array is judged equal to the other array's slot exactly when that
slot's value is present but not valid; all other slot pairs are compared by
value. -/
def slotEqualSpec : Option DictValue → Option DictValue → Prop
  | none, some y => y.valid = false
  | some x, none => x.valid = false
  | x, y => x = y

/-- Claim C10: `equal` returns `false` whenever the data types or the lengths
differ; and when both agree, it returns `true` exactly when every
corresponding slot pair satisfies the claim's comparison: a null slot matches
a present-but-invalid value on the other side, and all other pairs are
compared by value. -/
theorem dict_equal_spec (lhs rhs : DictionaryArray) :
    (lhs.data_type ≠ rhs.data_type ∨ lhs.len ≠ rhs.len →
      dictEqual lhs rhs = false) ∧
    (lhs.data_type = rhs.data_type → lhs.len = rhs.len →
      (dictEqual lhs rhs = true ↔
        ∀ i : Nat, ∀ hl : i < lhs.slots.length, ∀ hr : i < rhs.slots.length,
          slotEqualSpec (lhs.slots.get ⟨i, hl⟩) (rhs.slots.get ⟨i, hr⟩))) := by
  constructor
  · intro hne
    simp only [dictEqual]
    split
    · rfl
    · rename_i hcond
      push_neg at hcond
      rcases hne with h | h
      · exact absurd hcond.1 h
      · exact absurd hcond.2 h
  · intro hdt hlen
    simp only [dictEqual, hdt, hlen, and_self, not_true_eq_false, if_false]
    rw [List.all_eq_true, List.forall_mem_iff_getElem]
    constructor
    · intro hall i hl hr
      have hz : i < (lhs.slots.zip rhs.slots).length := by
        simp only [List.length_zip]
        omega
      have := hall i hz
      rw [List.getElem_zip] at this
      revert this
      simp only [List.get_eq_getElem]
      cases hx : lhs.slots[i] <;> cases hy : rhs.slots[i] <;>
        simp_all [slotEqualSpec]
    · intro hslots i hz
      have hl : i < lhs.slots.length := by
        simp only [List.length_zip] at hz
        omega
      have hr : i < rhs.slots.length := by
        simp only [List.length_zip] at hz
        omega
      have := hslots i hl hr
      rw [List.getElem_zip]
      revert this
      simp only [List.get_eq_getElem]
      cases hx : lhs.slots[i] <;> cases hy : rhs.slots[i] <;>
        simp_all [slotEqualSpec]

/-- Witness for C10: on two concrete arrays that compare equal, the claim's
slot comparison holds where a null slot faces a present-but-invalid value;
and a length mismatch is judged unequal. -/
theorem dict_equal_spec_witness :
    slotEqualSpec
      ((⟨"dict", [none, some ⟨true, 4⟩]⟩ : DictionaryArray).slots.get
        ⟨0, by decide⟩)
      ((⟨"dict", [some ⟨false, 9⟩, some ⟨true, 4⟩]⟩ : DictionaryArray).slots.get
        ⟨0, by decide⟩) ∧
    dictEqual ⟨"dict", [none]⟩ ⟨"dict", []⟩ = false :=
  ⟨((dict_equal_spec ⟨"dict", [none, some ⟨true, 4⟩]⟩
      ⟨"dict", [some ⟨false, 9⟩, some ⟨true, 4⟩]⟩).2 rfl rfl).mp (by decide)
      0 (by decide) (by decide),
    (dict_equal_spec ⟨"dict", [none]⟩ ⟨"dict", []⟩).1 (Or.inr (by decide))⟩

end Databend
